import Mathlib

/-!
Shallow embedding of the validator and minimal-dataset extractor of
`src/scripts/test_anonymization.py` (function `test_anonymization_compatibility`).

The script reads a DICOM dataset, builds an `issues : List String` by running
five checks in a fixed order (required tags, problematic VRs, sequence items,
private-tag count, character set), and then builds a minimal dataset that
copies a whitelist of keyed elements plus synthesized file meta.
-/

set_option maxHeartbeats 1000000

namespace Dicorre

/-- A DICOM tag: a pair of 16-bit (group, element) numbers. -/
structure Tag where
  group : Nat
  element : Nat
deriving DecidableEq, Repr

/-- The value payload of a data element, as the Python runtime sees it.
`vnone` models Python `None`; `vstr` a string value; `vseq` a sequence whose
items are nested datasets (`some id`, content opaque to the checks, which only
test `item is None`) or Python `None` (`Option.none`); `vscalar` a numeric
scalar (an object with no `__len__`); `raising` models a value object whose
enumeration raises an exception inside the `try` block of the sequence check. -/
inductive Value where
  | vnone
  | vstr (s : String)
  | vseq (items : List (Option Nat))
  | vscalar (n : Int)
  | raising
deriving DecidableEq, Repr

/-- Python `str()` rendering of a value, as f-string interpolation performs it. -/
def Value.toStr : Value → String
  | Value.vnone => "None"
  | Value.vstr s => s
  | Value.vseq _ => "[...]"
  | Value.vscalar n => toString n
  | Value.raising => "<object>"

/-- Models `hasattr(value, '__len__')`: strings and sequences are sized; the
pathological `raising` object advertises `__len__` but raises when enumerated;
`None` and scalars have no `__len__`. -/
def listLike : Value → Bool
  | Value.vstr _ => true
  | Value.vseq _ => true
  | Value.raising => true
  | _ => false

/-- Models `enumerate(value)` inside the `try`: `some items` when enumeration
succeeds (a string enumerates to its characters, never `None`), `none` when it
raises (caught by the bare `except`). -/
def enumerateValue : Value → Option (List (Option Nat))
  | Value.vseq items => some items
  | Value.vstr s => some (s.data.map (fun _ => some 0))
  | _ => none

/-- One DICOM data element: tag, dictionary keyword, VR code, value, and the
pydicom `is_empty` flag consulted by the required-tag check. -/
structure DataElement where
  tag : Tag
  keyword : String
  vr : String
  value : Value
  is_empty : Bool
deriving DecidableEq, Repr

/-- A dataset: an ordered collection of data elements (iteration order is
storage order; tags are unique keys in well-formed input). -/
structure Dataset where
  elements : List DataElement
deriving DecidableEq, Repr

/-- Models `ds.get(tag)`: the element with the given tag, or `None`. -/
def Dataset.get (ds : Dataset) (t : Tag) : Option DataElement :=
  ds.elements.find? (fun e => e.tag = t)

/-- Models pydicom keyword attribute access (`getattr(ds, name)` /
`hasattr(ds, name)`): the element whose dictionary keyword is `name`. -/
def Dataset.getKeyword (ds : Dataset) (n : String) : Option DataElement :=
  ds.elements.find? (fun e => e.keyword = n)

/-- Rendering of a tag inside issue messages (pydicom shows `(group, element)`;
the exact digit formatting is immaterial to the properties proved here). -/
def tagStr (t : Tag) : String :=
  "(" ++ toString t.group ++ ", " ++ toString t.element ++ ")"

/-! Check 1 (source lines 22-36): required tags. -/

/-- The five required tags, in the order of the source list: SOP Instance UID,
Patient Name, Patient ID, Study Instance UID, Series Instance UID. -/
def required_tags : List Tag :=
  [⟨0x0008, 0x0018⟩, ⟨0x0010, 0x0010⟩, ⟨0x0010, 0x0020⟩, ⟨0x0020, 0x000D⟩, ⟨0x0020, 0x000E⟩]

/-- The loop body for one required tag: missing, empty, or fine. -/
def reqCheckOne (ds : Dataset) (t : Tag) : List String :=
  match ds.get t with
  | Option.none => ["Missing required tag " ++ tagStr t]
  | some e =>
    if e.is_empty then ["Empty required tag " ++ tagStr t ++ " (" ++ e.keyword ++ ")"]
    else []

/-- Whether the required-tag check fires for tag `t` (missing or empty). -/
def reqProblem (ds : Dataset) (t : Tag) : Bool :=
  match ds.get t with
  | Option.none => true
  | some e => e.is_empty

/-- All issues appended by the required-tag loop, in list order. -/
def requiredTagIssues (ds : Dataset) : List String :=
  required_tags.flatMap (reqCheckOne ds)

/-! Check 2 (source lines 38-48): problematic binary/unknown VRs. -/

/-- The set of problematic VR codes the loop tests membership in. -/
def problematic_vr_list : List String := ["OB", "OW", "OF", "OD", "OL", "OV", "UN"]

/-- The description appended for one problematic element:
`f"{elem.tag} ({elem.keyword}) has VR={elem.VR}"`. -/
def vrLine (e : DataElement) : String :=
  tagStr e.tag ++ " (" ++ e.keyword ++ ") has VR=" ++ e.vr

/-- The `problematic_vrs` accumulator: one description per element whose VR is
in the problematic set and whose tag group is not 0x7FE0 (pixel data). -/
def problematic_vrs (ds : Dataset) : List String :=
  (ds.elements.filter
    (fun e => problematic_vr_list.contains e.vr && e.tag.group != 0x7FE0)).map vrLine

/-- The issues appended for check 2: when any problematic VR exists, a header
line, then `"  - " ++ v` for only the FIRST FIVE descriptions
(`problematic_vrs[:5]`), then, when more than five exist, one
`"  ... and N more"` line. -/
def vrIssues (ds : Dataset) : List String :=
  let pvs := problematic_vrs ds
  if pvs.isEmpty then []
  else
    ["Found binary/unknown VRs that might cause issues:"]
      ++ (pvs.take 5).map (fun v => "  - " ++ v)
      ++ (if pvs.length > 5 then ["  ... and " ++ toString (pvs.length - 5) ++ " more"] else [])

/-! Check 3 (source lines 50-59): sequences with missing items. -/

/-- The message for a `None` item at index `i` of a sequence element. -/
def seqMissingMsg (e : DataElement) (i : Nat) : String :=
  "Sequence " ++ tagStr e.tag ++ " (" ++ e.keyword ++ ") has None item at index " ++ toString i

/-- The message appended when enumerating a sequence value raises. -/
def seqCannotMsg (e : DataElement) : String :=
  "Cannot iterate sequence " ++ tagStr e.tag ++ " (" ++ e.keyword ++ ")"

/-- The loop body for one element of check 3: only VR "SQ" is examined; inside
the `try`, `hasattr(elem.value, '__len__')` gates enumeration — a value with no
`__len__` is skipped silently; when enumeration succeeds, one message is
appended per `None` item with its index; when it raises, the bare `except`
appends the cannot-iterate message. -/
def seqCheckOne (e : DataElement) : List String :=
  if e.vr = "SQ" then
    if listLike e.value then
      match enumerateValue e.value with
      | some items =>
        (items.enum.filter (fun p => p.2 = Option.none)).map (fun p => seqMissingMsg e p.1)
      | Option.none => [seqCannotMsg e]
    else []
  else []

/-- All issues appended by check 3, in element order. -/
def seqIssues (ds : Dataset) : List String :=
  ds.elements.flatMap seqCheckOne

/-! Check 4 (source lines 61-64): private-tag volume. -/

/-- `len([elem for elem in ds if elem.tag.group & 0x0001])`. -/
def private_count (ds : Dataset) : Nat :=
  (ds.elements.filter (fun e => e.tag.group &&& 0x0001 != 0)).length

/-- The single aggregate message for a high private-tag count. -/
def privateMsg (n : Nat) : String :=
  "High number of private tags (" ++ toString n ++ ") might cause processing issues"

/-- The issues appended by check 4: one aggregate message when the count
exceeds 50, nothing otherwise. -/
def privateTagIssues (ds : Dataset) : List String :=
  if private_count ds > 50 then [privateMsg (private_count ds)] else []

/-! Check 5 (source lines 66-69): non-standard character set. -/

/-- The allow-list, in source order. -/
def allowed_charsets : List String := ["ISO_IR 100", "ISO_IR 192", "", "ISO_IR 6"]

/-- Python `value in list_of_strings`: only a string can be a member; `None`
(and any non-string value) is in no list of strings. -/
def valueInStrList (v : Value) (l : List String) : Bool :=
  match v with
  | Value.vstr s => l.contains s
  | _ => false

/-- The issues appended by check 5: `ds.get(0x00080005)` returning `None` is
falsy, so absence yields nothing; a present element (a `DataElement` object is
always truthy) yields one message when its value is not in the allow-list. -/
def charsetIssues (ds : Dataset) : List String :=
  match ds.get ⟨0x0008, 0x0005⟩ with
  | Option.none => []
  | some e =>
    if valueInStrList e.value allowed_charsets then []
    else ["Non-standard character set: " ++ e.value.toStr]

/-- The full `issues` list built by `test_anonymization_compatibility`:
the five checks run unconditionally, in source order, and their messages are
appended to one shared list. -/
def validate (ds : Dataset) : List String :=
  requiredTagIssues ds ++ vrIssues ds ++ seqIssues ds ++ privateTagIssues ds ++ charsetIssues ds

/-! Minimal dataset extraction (source lines 85-107). -/

/-- `pydicom.uid.ExplicitVRLittleEndian`. -/
def ExplicitVRLittleEndian : String := "1.2.840.10008.1.2.1"

/-- The synthesized `test_ds.file_meta`. -/
structure FileMeta where
  transferSyntaxUID : String
  mediaStorageSOPClassUID : Value
  mediaStorageSOPInstanceUID : Value
deriving DecidableEq, Repr

/-- The minimal test dataset: its file meta plus its copied main elements. -/
structure MinimalResult where
  file_meta : FileMeta
  elements : List DataElement
deriving DecidableEq, Repr

/-- The `essential_tags` whitelist of keywords, in source order. -/
def essential_tags : List String :=
  ["PatientName", "PatientID", "StudyInstanceUID",
   "SeriesInstanceUID", "SOPInstanceUID", "SOPClassUID",
   "Modality", "StudyDate", "SeriesDate"]

/-- Models building the minimal test dataset: `ds.SOPClassUID` and
`ds.SOPInstanceUID` are plain attribute accesses that raise `AttributeError`
when the element is absent (the exception reaches the outer handler, so no
dataset is produced); when both are present their values — empty or not — are
copied into file meta; then each whitelisted keyword present in the source
(`hasattr`) is copied (`setattr(test_ds, name, getattr(ds, name))`), and absent
keywords are skipped silently. -/
def extractMinimal (ds : Dataset) : Except String MinimalResult :=
  match ds.getKeyword "SOPClassUID" with
  | Option.none => Except.error "AttributeError: SOPClassUID"
  | some ce =>
    match ds.getKeyword "SOPInstanceUID" with
    | Option.none => Except.error "AttributeError: SOPInstanceUID"
    | some ie =>
      Except.ok
        { file_meta :=
            { transferSyntaxUID := ExplicitVRLittleEndian,
              mediaStorageSOPClassUID := ce.value,
              mediaStorageSOPInstanceUID := ie.value },
          elements := essential_tags.filterMap (fun n => ds.getKeyword n) }

/-- Keyword lookup in the extracted minimal dataset. -/
def MinimalResult.getKeyword (r : MinimalResult) (n : String) : Option DataElement :=
  r.elements.find? (fun e => e.keyword = n)

/-! Sample datasets used by witnesses and counterexamples. -/

/-- A dataset holding a valid SOP Instance UID and an empty Patient Name. -/
def dsC5 : Dataset :=
  ⟨[⟨⟨0x0008, 0x0018⟩, "SOPInstanceUID", "UI", Value.vstr "1.2.3", false⟩,
    ⟨⟨0x0010, 0x0010⟩, "PatientName", "PN", Value.vnone, true⟩]⟩

/-- Fifty-one elements, all with odd tag group 0x0009. -/
def ds51 : Dataset :=
  ⟨(List.range 51).map (fun k => ⟨⟨0x0009, k⟩, "", "LO", Value.vstr "x", false⟩)⟩

/-- Fifty elements, all with odd tag group 0x0009. -/
def ds50 : Dataset :=
  ⟨(List.range 50).map (fun k => ⟨⟨0x0009, k⟩, "", "LO", Value.vstr "x", false⟩)⟩

/-- A Specific Character Set element with the non-standard value "GB18030". -/
def chsElemGB : DataElement :=
  ⟨⟨0x0008, 0x0005⟩, "SpecificCharacterSet", "CS", Value.vstr "GB18030", false⟩

/-- A Specific Character Set element with the allowed value "ISO_IR 100". -/
def chsElemISO : DataElement :=
  ⟨⟨0x0008, 0x0005⟩, "SpecificCharacterSet", "CS", Value.vstr "ISO_IR 100", false⟩

/-- A Specific Character Set element that is present but empty (value `None`). -/
def chsElemEmpty : DataElement :=
  ⟨⟨0x0008, 0x0005⟩, "SpecificCharacterSet", "CS", Value.vnone, true⟩

def dsGB : Dataset := ⟨[chsElemGB]⟩

def dsISO : Dataset := ⟨[chsElemISO]⟩

def dsChsEmpty : Dataset := ⟨[chsElemEmpty]⟩

/-! Helper lemmas. -/

theorem reqCheckOne_length (ds : Dataset) (t : Tag) :
    (reqCheckOne ds t).length = if reqProblem ds t then 1 else 0 := by
  unfold reqCheckOne reqProblem
  cases ds.get t with
  | none => rfl
  | some e => cases he : e.is_empty <;> simp [he]

theorem flatMap_reqCheck_length (ds : Dataset) (l : List Tag) :
    (l.flatMap (reqCheckOne ds)).length = (l.filter (fun t => reqProblem ds t)).length := by
  induction l with
  | nil => rfl
  | cons t ts ih =>
    rw [List.flatMap_cons, List.length_append, ih, List.filter_cons]
    cases h : reqProblem ds t <;> (simp [reqCheckOne_length, h]; try omega)

/-! Claims C5-C8 and C10. -/

/-- Claim C5: for every dataset, the engine emits exactly one finding per
required tag in the five-tag list that is missing ("Missing required tag") or
present but empty ("Empty required tag"), and none for a present non-empty tag;
the required-tag issues are the concatenation of the per-tag checks over the
fixed source-order tag list (SOP Instance UID first), so their total count
equals the number of problematic required tags — exactly one finding per such
tag, no duplicates. -/
theorem C5_required_tag_findings (ds : Dataset) :
    (∀ t, ds.get t = Option.none →
      reqCheckOne ds t = ["Missing required tag " ++ tagStr t]) ∧
    (∀ t e, ds.get t = some e → e.is_empty = true →
      reqCheckOne ds t = ["Empty required tag " ++ tagStr t ++ " (" ++ e.keyword ++ ")"]) ∧
    (∀ t e, ds.get t = some e → e.is_empty = false → reqCheckOne ds t = []) ∧
    requiredTagIssues ds = required_tags.flatMap (reqCheckOne ds) ∧
    (requiredTagIssues ds).length
      = (required_tags.filter (fun t => reqProblem ds t)).length := by
  refine ⟨?_, ?_, ?_, rfl, flatMap_reqCheck_length ds required_tags⟩
  · intro t ht
    unfold reqCheckOne
    rw [ht]
  · intro t e ht he
    unfold reqCheckOne
    rw [ht]
    simp [he]
  · intro t e ht he
    unfold reqCheckOne
    rw [ht]
    simp [he]

/-- Witness for C5 at a concrete dataset: Patient ID is missing and yields the
missing-tag finding; of the five required tags, four are problematic (one
empty, three missing), so exactly four findings are returned. -/
theorem C5_required_tag_findings_witness :
    reqCheckOne dsC5 ⟨0x0010, 0x0020⟩ = ["Missing required tag " ++ tagStr ⟨0x0010, 0x0020⟩] ∧
    (requiredTagIssues dsC5).length = 4 := by
  have h := C5_required_tag_findings dsC5
  refine ⟨h.1 ⟨0x0010, 0x0020⟩ (by decide), ?_⟩
  rw [h.2.2.2.2]
  decide

/-- Claim C6: the private-tag check emits exactly one aggregate finding, whose
message carries the count N, when the number of odd-group elements exceeds 50,
and emits nothing when that count is at most 50; the message for N = 51
contains "51". -/
theorem C6_private_tag_threshold (ds : Dataset) :
    (private_count ds > 50 → privateTagIssues ds = [privateMsg (private_count ds)]) ∧
    (private_count ds ≤ 50 → privateTagIssues ds = []) ∧
    privateMsg 51 = "High number of private tags (51) might cause processing issues" := by
  refine ⟨?_, ?_, by decide⟩
  · intro h
    unfold privateTagIssues
    simp [h]
  · intro h
    unfold privateTagIssues
    have hn : ¬ private_count ds > 50 := by omega
    simp [hn]

/-- Witness for C6: 51 odd-group elements yield exactly the one aggregate
finding containing "51"; 50 such elements yield no finding. -/
theorem C6_private_tag_threshold_witness :
    private_count ds51 = 51 ∧ privateTagIssues ds51 = [privateMsg 51] ∧
    private_count ds50 = 50 ∧ privateTagIssues ds50 = [] := by
  have h51 := (C6_private_tag_threshold ds51).1
  have h50 := (C6_private_tag_threshold ds50).2.1
  have e51 : private_count ds51 = 51 := by decide
  refine ⟨e51, ?_, by decide, h50 (by decide)⟩
  rw [h51 (by omega), e51]

/-- Claim C7: the character-set check emits nothing when tag (0x0008,0x0005)
is absent; nothing when it is present with a string value in the allowed set;
and exactly one finding carrying the value string when it is present with a
string value outside the allowed set. -/
theorem C7_charset_rule (ds : Dataset) :
    (ds.get ⟨0x0008, 0x0005⟩ = Option.none → charsetIssues ds = []) ∧
    (∀ e s, ds.get ⟨0x0008, 0x0005⟩ = some e → e.value = Value.vstr s →
      s ∈ allowed_charsets → charsetIssues ds = []) ∧
    (∀ e s, ds.get ⟨0x0008, 0x0005⟩ = some e → e.value = Value.vstr s →
      s ∉ allowed_charsets →
      charsetIssues ds = ["Non-standard character set: " ++ s]) := by
  refine ⟨?_, ?_, ?_⟩
  · intro h
    unfold charsetIssues
    rw [h]
  · intro e s he hv hs
    unfold charsetIssues
    rw [he]
    simp [valueInStrList, hv, hs]
  · intro e s he hv hs
    unfold charsetIssues
    rw [he]
    simp [valueInStrList, hv, hs, Value.toStr]

/-- Witness for C7: value "GB18030" yields exactly one finding containing that
string; value "ISO_IR 100" yields none; an absent tag yields none. -/
theorem C7_charset_rule_witness :
    charsetIssues dsGB = ["Non-standard character set: " ++ "GB18030"] ∧
    charsetIssues dsISO = [] ∧
    charsetIssues ⟨[]⟩ = [] := by
  refine ⟨?_, ?_, ?_⟩
  · exact (C7_charset_rule dsGB).2.2 chsElemGB "GB18030" (by decide) rfl (by decide)
  · exact (C7_charset_rule dsISO).2.1 chsElemISO "ISO_IR 100" (by decide) rfl (by decide)
  · exact (C7_charset_rule ⟨[]⟩).1 (by decide)

/-- Claim C8: the engine is deterministic — validating the same dataset twice
(two runs on equal inputs) yields identical issue lists; the output is a pure
function of the input dataset with no hidden state. -/
theorem C8_deterministic (ds1 ds2 : Dataset) (h : ds1 = ds2) :
    validate ds1 = validate ds2 := by
  rw [h]

/-- Witness for C8 at a concrete dataset. -/
theorem C8_deterministic_witness : validate dsC5 = validate dsC5 :=
  C8_deterministic dsC5 dsC5 rfl

/-- Claim C10: the character-set rule distinguishes an empty element from the
empty string: a present-but-empty Specific Character Set element carries the
null placeholder (Python `None`) as its value, which is not a member of the
string allow-list, so the engine emits the finding (rendering the value as
"None") even though the empty string itself is allowed. -/
theorem C10_charset_empty_element (ds : Dataset) (e : DataElement)
    (h : ds.get ⟨0x0008, 0x0005⟩ = some e) (hv : e.value = Value.vnone)
    (_hemp : e.is_empty = true) :
    charsetIssues ds = ["Non-standard character set: None"] := by
  unfold charsetIssues
  rw [h]
  simp [valueInStrList, hv, Value.toStr]

/-- Witness for C10: a dataset whose character-set element is present but
empty receives the non-standard-character-set finding. -/
theorem C10_charset_empty_element_witness :
    charsetIssues dsChsEmpty = ["Non-standard character set: None"] :=
  C10_charset_empty_element dsChsEmpty chsElemEmpty (by decide) rfl rfl

/-! Claims C3, C9 and C4: minimal-dataset extraction. -/

/-- A source dataset whose identity elements are present but empty. -/
def dsEmptyIds : Dataset :=
  ⟨[⟨⟨0x0008, 0x0016⟩, "SOPClassUID", "UI", Value.vnone, true⟩,
    ⟨⟨0x0008, 0x0018⟩, "SOPInstanceUID", "UI", Value.vnone, true⟩]⟩

/-- A source dataset carrying all nine whitelist elements. -/
def dsFull : Dataset :=
  ⟨[⟨⟨0x0010, 0x0010⟩, "PatientName", "PN", Value.vstr "Doe", false⟩,
    ⟨⟨0x0010, 0x0020⟩, "PatientID", "LO", Value.vstr "P1", false⟩,
    ⟨⟨0x0020, 0x000D⟩, "StudyInstanceUID", "UI", Value.vstr "1.2", false⟩,
    ⟨⟨0x0020, 0x000E⟩, "SeriesInstanceUID", "UI", Value.vstr "1.3", false⟩,
    ⟨⟨0x0008, 0x0018⟩, "SOPInstanceUID", "UI", Value.vstr "1.4", false⟩,
    ⟨⟨0x0008, 0x0016⟩, "SOPClassUID", "UI", Value.vstr "1.5", false⟩,
    ⟨⟨0x0008, 0x0060⟩, "Modality", "CS", Value.vstr "OT", false⟩,
    ⟨⟨0x0008, 0x0020⟩, "StudyDate", "DA", Value.vstr "20240101", false⟩,
    ⟨⟨0x0008, 0x0021⟩, "SeriesDate", "DA", Value.vstr "20240102", false⟩]⟩

/-- Claim C3: when the source lacks SOPClassUID or SOPInstanceUID, extraction
fails with a hard error (the attribute access raises) and no minimal dataset
is produced — failure is all-or-nothing. -/
theorem C3_missing_identity_fails (ds : Dataset)
    (h : ds.getKeyword "SOPClassUID" = Option.none ∨
      ds.getKeyword "SOPInstanceUID" = Option.none) :
    (∃ msg, extractMinimal ds = Except.error msg) ∧
    ∀ r, extractMinimal ds ≠ Except.ok r := by
  have herr : ∃ msg, extractMinimal ds = Except.error msg := by
    unfold extractMinimal
    rcases h with h | h
    · rw [h]
      exact ⟨_, rfl⟩
    · cases hc : ds.getKeyword "SOPClassUID" with
      | none => exact ⟨_, rfl⟩
      | some ce =>
        rw [h]
        exact ⟨_, rfl⟩
  refine ⟨herr, ?_⟩
  intro r hr
  obtain ⟨msg, hm⟩ := herr
  rw [hm] at hr
  cases hr

/-- Witness for C3: the empty dataset lacks SOPClassUID, and extraction on it
returns an error and no dataset. -/
theorem C3_missing_identity_fails_witness :
    (∃ msg, extractMinimal ⟨[]⟩ = Except.error msg) ∧
    ∀ r, extractMinimal ⟨[]⟩ ≠ Except.ok r :=
  C3_missing_identity_fails ⟨[]⟩ (Or.inl (by decide))

/-- Claim C9: the extractor's identity precondition checks only presence, not
emptiness: when SOPClassUID and SOPInstanceUID elements are present but empty,
extraction succeeds and the synthesized file meta carries the (empty) source
values verbatim. -/
theorem C9_presence_only_precondition (ds : Dataset) (ce ie : DataElement)
    (hc : ds.getKeyword "SOPClassUID" = some ce)
    (hi : ds.getKeyword "SOPInstanceUID" = some ie)
    (_hce : ce.is_empty = true) (_hie : ie.is_empty = true) :
    ∃ r, extractMinimal ds = Except.ok r ∧
      r.file_meta.mediaStorageSOPClassUID = ce.value ∧
      r.file_meta.mediaStorageSOPInstanceUID = ie.value ∧
      r.file_meta.transferSyntaxUID = ExplicitVRLittleEndian := by
  unfold extractMinimal
  rw [hc, hi]
  exact ⟨_, rfl, rfl, rfl, rfl⟩

/-- Witness for C9: a source with present-but-empty identity elements
extracts successfully, carrying the empty values into file meta. -/
theorem C9_presence_only_precondition_witness :
    ∃ r, extractMinimal dsEmptyIds = Except.ok r ∧
      r.file_meta.mediaStorageSOPClassUID = Value.vnone ∧
      r.file_meta.mediaStorageSOPInstanceUID = Value.vnone ∧
      r.file_meta.transferSyntaxUID = ExplicitVRLittleEndian :=
  C9_presence_only_precondition dsEmptyIds
    ⟨⟨0x0008, 0x0016⟩, "SOPClassUID", "UI", Value.vnone, true⟩
    ⟨⟨0x0008, 0x0018⟩, "SOPInstanceUID", "UI", Value.vnone, true⟩
    (by decide) (by decide) rfl rfl

theorem getKeyword_keyword {ds : Dataset} {n : String} {e : DataElement}
    (h : ds.getKeyword n = some e) : e.keyword = n := by
  unfold Dataset.getKeyword at h
  have hp := List.find?_some h
  simpa using hp

theorem find?_filterMap_getKeyword (ds : Dataset) (names : List String) (n : String)
    (hn : n ∈ names) (hall : ∀ m ∈ names, (ds.getKeyword m).isSome) :
    (names.filterMap (fun m => ds.getKeyword m)).find? (fun e => e.keyword = n)
      = ds.getKeyword n := by
  induction names with
  | nil => cases hn
  | cons m ms ih =>
    obtain ⟨e, he⟩ := Option.isSome_iff_exists.mp (hall m (by simp))
    have hk : e.keyword = m := getKeyword_keyword he
    simp only [List.filterMap_cons, he]
    by_cases hmn : m = n
    · subst hmn
      rw [List.find?_cons_of_pos _ (by simp [hk]), he]
    · rw [List.find?_cons_of_neg _ (by simp [hk, hmn])]
      have hn2 : n ∈ ms := by
        rcases List.mem_cons.mp hn with h | h
        · exact absurd h.symm hmn
        · exact h
      exact ih hn2 (fun m hm => hall m (List.mem_cons_of_mem _ hm))

theorem find?_filterMap_getKeyword_none (ds : Dataset) (names : List String) (n : String)
    (hn : n ∉ names) :
    (names.filterMap (fun m => ds.getKeyword m)).find? (fun e => e.keyword = n)
      = Option.none := by
  apply List.find?_eq_none.mpr
  intro e he
  obtain ⟨m, hm, hme⟩ := List.mem_filterMap.mp he
  have hk : e.keyword = m := getKeyword_keyword hme
  simp only [hk, decide_eq_true_eq]
  intro h
  exact hn (h ▸ hm)

/-- Claim C4: extracting from a source containing all nine whitelist elements
succeeds, and in the resulting minimal dataset each of the nine whitelisted
keywords looks up to a value equal to the source's value, while any keyword
outside the whitelist looks up to absent. -/
theorem C4_minimal_roundtrip (ds : Dataset)
    (hall : ∀ m ∈ essential_tags, (ds.getKeyword m).isSome) :
    ∃ r, extractMinimal ds = Except.ok r ∧
      (∀ n ∈ essential_tags,
        (r.getKeyword n).map DataElement.value = (ds.getKeyword n).map DataElement.value) ∧
      (∀ n, n ∉ essential_tags → r.getKeyword n = Option.none) := by
  obtain ⟨ce, hce⟩ := Option.isSome_iff_exists.mp (hall "SOPClassUID" (by decide))
  obtain ⟨ie, hie⟩ := Option.isSome_iff_exists.mp (hall "SOPInstanceUID" (by decide))
  refine ⟨{ file_meta :=
              { transferSyntaxUID := ExplicitVRLittleEndian,
                mediaStorageSOPClassUID := ce.value,
                mediaStorageSOPInstanceUID := ie.value },
            elements := essential_tags.filterMap (fun m => ds.getKeyword m) }, ?_, ?_, ?_⟩
  · unfold extractMinimal
    rw [hce, hie]
  · intro n hn
    unfold MinimalResult.getKeyword
    rw [find?_filterMap_getKeyword ds essential_tags n hn hall]
  · intro n hn
    unfold MinimalResult.getKeyword
    exact find?_filterMap_getKeyword_none ds essential_tags n hn

/-- Witness for C4: a concrete source with all nine whitelist elements. -/
theorem C4_minimal_roundtrip_witness :
    (∀ m ∈ essential_tags, (dsFull.getKeyword m).isSome) ∧
    ∃ r, extractMinimal dsFull = Except.ok r ∧
      (∀ n ∈ essential_tags,
        (r.getKeyword n).map DataElement.value = (dsFull.getKeyword n).map DataElement.value) ∧
      (∀ n, n ∉ essential_tags → r.getKeyword n = Option.none) :=
  ⟨by decide, C4_minimal_roundtrip dsFull (by decide)⟩

/-! Claims C1 and C2: the VR check truncates, and the sequence check skips
non-list-like values silently. -/

/-- A non-pixel element with the problematic VR "UN" at group 0x0009. -/
def unElem (k : Nat) : DataElement :=
  ⟨⟨0x0009, k⟩, "", "UN", Value.vnone, true⟩

/-- Six problematic-VR elements — one more than the display cut-off. -/
def ds6 : Dataset := ⟨(List.range 6).map unElem⟩

/-- An SQ element whose value is `None` — not list-like, no `__len__`. -/
def sqNoneElem : DataElement :=
  ⟨⟨0x0040, 0x0100⟩, "ReferencedStudySequence", "SQ", Value.vnone, true⟩

def dsSQnone : Dataset := ⟨[sqNoneElem]⟩

/-- An SQ element whose second item is the null placeholder. -/
def sqElemW : DataElement :=
  ⟨⟨0x0040, 0x0100⟩, "ReferencedStudySequence", "SQ",
    Value.vseq [some 0, Option.none], false⟩

def dsSQw : Dataset := ⟨[sqElemW]⟩

theorem mem_vrIssues_validate {ds : Dataset} {s : String}
    (h : s ∈ vrIssues ds) : s ∈ validate ds := by
  unfold validate
  exact List.mem_append.mpr (Or.inl (List.mem_append.mpr (Or.inl
    (List.mem_append.mpr (Or.inl (List.mem_append.mpr (Or.inr h)))))))

theorem mem_seqIssues_validate {ds : Dataset} {s : String}
    (h : s ∈ seqIssues ds) : s ∈ validate ds := by
  unfold validate
  exact List.mem_append.mpr (Or.inl (List.mem_append.mpr (Or.inl
    (List.mem_append.mpr (Or.inr h)))))

/-- Claim C1 counterexample: in a dataset with six problematic-VR elements the
sixth element satisfies the disallowed-VR condition (VR "UN", group ≠ 0x7FE0)
and its description is collected in `problematic_vrs`, yet its per-element
finding does not appear in the returned issue list — the engine itself keeps
only the first five and replaces the rest with an aggregate count line. -/
theorem C1_counterexample :
    unElem 5 ∈ ds6.elements ∧
    problematic_vr_list.contains (unElem 5).vr = true ∧
    (unElem 5).tag.group ≠ 0x7FE0 ∧
    vrLine (unElem 5) ∈ problematic_vrs ds6 ∧
    ("  - " ++ vrLine (unElem 5)) ∉ validate ds6 := by
  decide

/-- Claim C1 amended: the engine emits a per-element disallowed-binary-VR
finding only for the first five problematic elements (in storage order); when
more than five exist, the remainder are dropped from the returned list and
represented only by one aggregate "... and N more" line, so the issue list
holds a header plus min(5, count) per-element findings plus at most one
aggregate line. -/
theorem C1_vr_truncation (ds : Dataset) :
    (∀ v ∈ (problematic_vrs ds).take 5, ("  - " ++ v) ∈ validate ds) ∧
    ((problematic_vrs ds).length > 5 →
      ("  ... and " ++ toString ((problematic_vrs ds).length - 5) ++ " more")
        ∈ validate ds) ∧
    (vrIssues ds).length =
      (if (problematic_vrs ds).isEmpty then 0
       else 1 + min 5 (problematic_vrs ds).length
         + (if (problematic_vrs ds).length > 5 then 1 else 0)) := by
  refine ⟨?_, ?_, ?_⟩
  · intro v hv
    have hne : (problematic_vrs ds).isEmpty = false := by
      cases hp : problematic_vrs ds with
      | nil =>
        rw [hp] at hv
        simp at hv
      | cons a l => rfl
    apply mem_vrIssues_validate
    simp only [vrIssues, hne, Bool.false_eq_true, if_false, List.mem_append, List.mem_cons,
      List.mem_singleton, List.mem_map]
    exact Or.inl (Or.inr ⟨v, hv, rfl⟩)
  · intro hlen
    have hne : (problematic_vrs ds).isEmpty = false := by
      cases hp : problematic_vrs ds with
      | nil =>
        rw [hp] at hlen
        simp at hlen
      | cons a l => rfl
    apply mem_vrIssues_validate
    simp only [vrIssues, hne, Bool.false_eq_true, if_false, hlen, if_pos, List.mem_append]
    exact Or.inr (by simp)
  · cases hne : (problematic_vrs ds).isEmpty with
    | true =>
      simp only [vrIssues, hne, if_pos]
      rfl
    | false =>
      by_cases hlen : (problematic_vrs ds).length > 5
      · simp only [vrIssues, hne, Bool.false_eq_true, if_false, hlen, if_pos]
        simp [List.length_append, List.length_take]
        omega
      · simp only [vrIssues, hne, Bool.false_eq_true, if_false, hlen, if_false]
        simp [List.length_append, List.length_take]
        omega

/-- Witness for C1 amended, at the six-element dataset: the first element's
finding is in the returned list, and so is the aggregate "... and 1 more"
line. -/
theorem C1_vr_truncation_witness :
    ("  - " ++ vrLine (unElem 0)) ∈ validate ds6 ∧
    ("  ... and 1 more") ∈ validate ds6 := by
  have h := C1_vr_truncation ds6
  refine ⟨h.1 (vrLine (unElem 0)) (by decide), ?_⟩
  have h2 := h.2.1 (by decide)
  have hs : ("  ... and " ++ toString ((problematic_vrs ds6).length - 5) ++ " more")
      = "  ... and 1 more" := by decide
  rw [hs] at h2
  exact h2

/-- Claim C2 counterexample: an SQ element whose value is `None` is not
list-like (no `__len__`), yet the engine emits no finding for it at all — in
particular no "cannot iterate" finding appears in the returned list; the
`hasattr` guard skips such a value silently rather than reporting it. -/
theorem C2_counterexample :
    sqNoneElem ∈ dsSQnone.elements ∧
    sqNoneElem.vr = "SQ" ∧
    listLike sqNoneElem.value = false ∧
    seqCheckOne sqNoneElem = [] ∧
    seqCannotMsg sqNoneElem ∉ validate dsSQnone := by
  decide

/-- Claim C2 amended: for an SQ element whose value is list-like and
enumerable, the engine emits a missing-item finding for each null item at its
index; a "cannot iterate" finding is emitted only when enumeration raises an
exception; an SQ value that is simply not list-like (no `__len__`) produces no
finding at all. -/
theorem C2_sequence_rule (ds : Dataset) (e : DataElement)
    (he : e ∈ ds.elements) (hvr : e.vr = "SQ") :
    (∀ items i, e.value = Value.vseq items →
      (i, (Option.none : Option Nat)) ∈ items.enum →
      seqMissingMsg e i ∈ validate ds) ∧
    (e.value = Value.raising → seqCannotMsg e ∈ validate ds) ∧
    (listLike e.value = false → seqCheckOne e = []) := by
  refine ⟨?_, ?_, ?_⟩
  · intro items i hv hmem
    apply mem_seqIssues_validate
    apply List.mem_flatMap.mpr
    refine ⟨e, he, ?_⟩
    simp only [seqCheckOne, hvr, if_pos, hv, listLike, enumerateValue, if_true]
    exact List.mem_map_of_mem _ (List.mem_filter.mpr ⟨hmem, by simp⟩)
  · intro hv
    apply mem_seqIssues_validate
    apply List.mem_flatMap.mpr
    refine ⟨e, he, ?_⟩
    simp [seqCheckOne, hvr, hv, listLike, enumerateValue]
  · intro hl
    simp [seqCheckOne, hvr, hl]

/-- Witness for C2 amended: a concrete SQ element with a null second item
yields the index-1 missing-item finding in the returned list. -/
theorem C2_sequence_rule_witness :
    seqMissingMsg sqElemW 1 ∈ validate dsSQw := by
  have h := C2_sequence_rule dsSQw sqElemW (by decide) rfl
  exact h.1 [some 0, Option.none] 1 rfl (by decide)

end Dicorre
